import Mathlib

/-!
Shallow embedding of the openclaw-persistent-memory-skill core:
the observation classifiers (plugin-side `classifyToolResult` in
`extension/index.ts`, ingestion-side `classifyObservation` and
`calculateImportance` in the worker), the SQLite-backed store
(`database/index.ts`), and the worker HTTP handlers.

Strings model JavaScript strings; `importance` is modelled with ℚ
(all constants and comparisons in the source are exact at this scale);
SQLite DATETIME values are modelled as integer timestamps in seconds.
-/

namespace OpenClawMem

/-- Models `needle.isPrefix of hay` on character lists: JS `startsWith`. -/
def startsWithCh : List Char → List Char → Bool
  | [], _ => true
  | _ :: _, [] => false
  | a :: n, b :: h => a == b && startsWithCh n h

/-- Models JS `String.prototype.includes` on character lists. -/
def subListOf : List Char → List Char → Bool
  | n, [] => n.isEmpty
  | n, b :: h => startsWithCh n (b :: h) || subListOf n h

/-- `strContains hay needle` models JS `hay.includes(needle)`. -/
def strContains (hay needle : String) : Bool :=
  subListOf needle.toList hay.toList

/-- Models JS `String.prototype.toLowerCase` (ASCII case folding). -/
def lower (s : String) : String :=
  String.mk (s.toList.map Char.toLower)

/-- Case-insensitive containment: `hay.toLowerCase().includes(needle.toLowerCase())`. -/
def containsCI (hay needle : String) : Bool :=
  strContains (lower hay) (lower needle)

/-- Plugin-side classifier `classifyToolResult` from `extension/index.ts`
(lines 196-237): returns the (type, importance) pair. -/
def classifyToolResult (toolName input output : String) : String × ℚ :=
  let lowerTool := lower toolName
  let lowerInput := lower input
  let lowerOutput := lower output
  if strContains lowerInput "fix" || strContains lowerOutput "fixed" ||
     strContains lowerOutput "resolved" || strContains lowerOutput "error" then
    ("bugfix", mkRat 9 10)
  else if strContains lowerTool "write" || strContains lowerTool "edit" then
    ("code_change", mkRat 7 10)
  else if strContains lowerTool "exec" && strContains lowerInput "git" then
    ("git_operation", mkRat 6 10)
  else if strContains lowerInput "test" || strContains lowerOutput "passed" ||
          strContains lowerOutput "failed" then
    ("testing", mkRat 6 10)
  else if strContains lowerTool "search" || strContains lowerTool "web_" then
    ("research", mkRat 4 10)
  else if strContains lowerTool "read" then
    ("exploration", mkRat 3 10)
  else
    ("tool_use", mkRat 5 10)

/-- Ingestion-side classifier `classifyObservation` from the worker server
(lines 295-324): returns the type tag only. -/
def classifyObservation (toolName input output : String) : String :=
  let lowerTool := lower toolName
  let lowerInput := lower input
  let lowerOutput := lower output
  if strContains lowerTool "write" || strContains lowerTool "edit" then
    if strContains lowerInput "fix" || strContains lowerOutput "fixed" then
      "bugfix"
    else
      "code_change"
  else if strContains lowerTool "exec" || lowerTool == "bash" then
    if strContains lowerInput "git" then "git_operation"
    else if strContains lowerInput "npm" || strContains lowerInput "yarn" then "dependency"
    else if strContains lowerInput "test" then "testing"
    else "command"
  else if strContains lowerTool "read" then
    "exploration"
  else if strContains lowerTool "search" then
    "research"
  else
    "tool_use"

/-- Models JS `Math.min` on the exact rationals of the model. -/
def qmin (a b : ℚ) : ℚ := if a ≤ b then a else b

/-- The `typeImportance` record literal inside `calculateImportance`
(worker server, lines 326-341); the JS lookup `typeImportance[type] || 0.5`. -/
def typeImportance (t : String) : ℚ :=
  if t == "bugfix" then mkRat 9 10
  else if t == "architecture" then mkRat 9 10
  else if t == "decision" then mkRat 85 100
  else if t == "code_change" then mkRat 7 10
  else if t == "git_operation" then mkRat 6 10
  else if t == "testing" then mkRat 6 10
  else if t == "dependency" then mkRat 5 10
  else if t == "research" then mkRat 4 10
  else if t == "exploration" then mkRat 3 10
  else if t == "command" then mkRat 4 10
  else if t == "tool_use" then mkRat 5 10
  else mkRat 5 10

/-- Ingestion-side `calculateImportance` from the worker server
(lines 326-354): base importance by type, plus clamped boosts keyed on
the output text.  `toolName` and `input` are accepted but unused, as in
the source. -/
def calculateImportance (type toolName input output : String) : ℚ :=
  let importance := typeImportance type
  let lowerOutput := lower output
  let importance :=
    if strContains lowerOutput "error" || strContains lowerOutput "failed" then
      qmin (importance + mkRat 1 10) (mkRat 1 1)
    else importance
  let importance :=
    if strContains lowerOutput "success" || strContains lowerOutput "completed" then
      qmin (importance + mkRat 5 100) (mkRat 1 1)
    else importance
  importance

/-- A row of the `sessions` table (schema.sql); `started_at`/`ended_at`
model SQLite DATETIME as integer timestamps. -/
structure Session where
  id : Nat
  session_key : String
  project_path : Option String
  started_at : Int
  ended_at : Option Int
  summary : Option String
  deriving Repr, DecidableEq

/-- A row of the `observations` table (schema.sql). -/
structure Observation where
  id : Nat
  session_id : Nat
  type : String
  tool_name : Option String
  input : Option String
  output : Option String
  summary : Option String
  tokens : Option Nat
  importance : ℚ
  created_at : Int
  deriving Repr, DecidableEq

/-- The persistent state of the SQLite database: the two primary tables
plus the AUTOINCREMENT counters.  The FTS index is derived row-for-row
from `observations` by the schema triggers, so it is not duplicated here. -/
structure Db where
  sessions : List Session
  observations : List Observation
  nextSessionId : Nat
  nextObservationId : Nat
  deriving Repr, DecidableEq

def emptyDb : Db := { sessions := [], observations := [], nextSessionId := 1, nextObservationId := 1 }

/-- JS `x || null` applied to an optional string field before INSERT:
the empty string is coalesced to NULL. -/
def strOrNull (s : Option String) : Option String :=
  match s with
  | some str => if str == "" then none else some str
  | none => none

/-- JS `x || null` applied to the optional `tokens` field: 0 is coalesced
to NULL. -/
def natOrNull (t : Option Nat) : Option Nat :=
  match t with
  | some n => if n == 0 then none else some n
  | none => none

/-- The row built by the plain `INSERT INTO sessions` in `createSession`
(database/index.ts lines 77-85), before the UNIQUE constraint is checked. -/
def newSessionRow (db : Db) (now : Int) (sessionKey : String) (projectPath : Option String) :
    Session :=
  { id := db.nextSessionId
    session_key := sessionKey
    project_path := strOrNull projectPath
    started_at := now
    ended_at := none
    summary := none }

/-- `createSession` (database/index.ts lines 77-85): a plain INSERT.
`session_key` is declared UNIQUE in schema.sql, so inserting an existing
key throws a constraint error, modelled as `Except.error`. -/
def createSession (db : Db) (now : Int) (sessionKey : String) (projectPath : Option String) :
    Except String (Db × Session) :=
  if db.sessions.any (fun s => s.session_key == sessionKey) then
    Except.error "UNIQUE constraint failed: sessions.session_key"
  else
    let s := newSessionRow db now sessionKey projectPath
    Except.ok
      ({ db with sessions := db.sessions ++ [s], nextSessionId := db.nextSessionId + 1 }, s)

/-- `getSession` (database/index.ts lines 87-91): SELECT by `session_key`. -/
def getSession (db : Db) (sessionKey : String) : Option Session :=
  db.sessions.find? (fun s => s.session_key == sessionKey)

/-- The caller-facing argument record of `createObservation`. -/
structure ObsInput where
  session_id : Nat
  type : String
  tool_name : Option String
  input : Option String
  output : Option String
  summary : Option String
  tokens : Option Nat
  importance : Option ℚ
  deriving Repr, DecidableEq

/-- `createObservation` (database/index.ts lines 127-157): INSERT with
`|| null` coalescing on the optional text/tokens fields and
`importance ?? 0.5` on the importance; `created_at` defaults to
CURRENT_TIMESTAMP.  The `session_id` foreign key is enforced
(`PRAGMA foreign_keys = ON`), modelled as `Except.error`. -/
def createObservation (db : Db) (now : Int) (inp : ObsInput) :
    Except String (Db × Observation) :=
  if db.sessions.any (fun s => s.id == inp.session_id) then
    let o : Observation :=
      { id := db.nextObservationId
        session_id := inp.session_id
        type := inp.type
        tool_name := strOrNull inp.tool_name
        input := strOrNull inp.input
        output := strOrNull inp.output
        summary := strOrNull inp.summary
        tokens := natOrNull inp.tokens
        importance := inp.importance.getD (mkRat 5 10)
        created_at := now }
    Except.ok
      ({ db with observations := db.observations ++ [o],
                 nextObservationId := db.nextObservationId + 1 }, o)
  else
    Except.error "FOREIGN KEY constraint failed"

/-- `getObservation` (database/index.ts lines 159-163): SELECT by id. -/
def getObservation (db : Db) (id : Nat) : Option Observation :=
  db.observations.find? (fun o => o.id == id)

/-- Insertion step of the stable insertion sort used to model SQL
`ORDER BY`: `r a b = true` means a may precede b. -/
def insBy (r : Observation → Observation → Bool) (a : Observation) :
    List Observation → List Observation
  | [] => [a]
  | x :: xs => if r a x then a :: x :: xs else x :: insBy r a xs

/-- Stable insertion sort modelling SQL `ORDER BY` over the rows of a query. -/
def srtBy (r : Observation → Observation → Bool) : List Observation → List Observation
  | [] => []
  | x :: xs => insBy r x (srtBy r xs)

/-- The `ORDER BY created_at DESC` comparison. -/
def byCreatedDesc (a b : Observation) : Bool :=
  decide (b.created_at ≤ a.created_at)

/-- The `ORDER BY created_at ASC` comparison. -/
def byCreatedAsc (a b : Observation) : Bool :=
  decide (a.created_at ≤ b.created_at)

/-- `getObservations` (database/index.ts lines 165-175): batch fetch,
`WHERE id IN (...) ORDER BY created_at DESC`, with the early return `[]`
for an empty id list. -/
def getObservations (db : Db) (ids : List Nat) : List Observation :=
  if ids.isEmpty then []
  else srtBy byCreatedDesc (db.observations.filter (fun o => decide (o.id ∈ ids)))

/-- `getTimeline` (database/index.ts lines 248-261): resolve the center
observation (empty result if absent), then select all observations with
`created_at BETWEEN center - rangeHours AND center + rangeHours`
(SQL BETWEEN is inclusive at both endpoints), `ORDER BY created_at ASC`. -/
def getTimeline (db : Db) (observationId : Nat) (rangeHours : Nat) : List Observation :=
  match getObservation db observationId with
  | none => []
  | some center =>
    srtBy byCreatedAsc (db.observations.filter (fun o =>
      decide (center.created_at - (rangeHours * 3600 : Nat) ≤ o.created_at) &&
      decide (o.created_at ≤ center.created_at + (rangeHours * 3600 : Nat))))

/-- The FTS5 engine is an external dependency (the persistence engine's
relevance index).  The store delegates query parsing, matching and bm25
ranking to it, so the model takes it as a parameter: `wellFormed` is
whether the MATCH expression parses (a malformed one makes the prepared
statement throw), `matchRow` is row matching, `rank` is the bm25 score
(lower is more relevant; the query orders by it ascending). -/
structure FtsEngine where
  wellFormed : String → Bool
  matchRow : String → Observation → Bool
  rank : String → Observation → ℚ
  deriving Inhabited

/-- The options record of `MemoryDatabase.search`; `since` is a
`created_at` lower bound. -/
structure SearchOptions where
  type : Option String
  since : Option Int
  limit : Option Nat
  deriving Repr, DecidableEq

def noSearchOptions : SearchOptions := { type := none, since := none, limit := none }

/-- A row of the `search` result set (database/index.ts lines 39-47). -/
structure SearchResult where
  id : Nat
  type : String
  tool_name : Option String
  summary : Option String
  created_at : Int
  importance : ℚ
  rank : ℚ
  deriving Repr, DecidableEq

def toSearchResult (fts : FtsEngine) (query : String) (o : Observation) : SearchResult :=
  { id := o.id, type := o.type, tool_name := o.tool_name, summary := o.summary,
    created_at := o.created_at, importance := o.importance, rank := fts.rank query o }

/-- `MemoryDatabase.search` (database/index.ts lines 206-244):
`limit = options.limit || 10` (JS truthiness: 0 falls back to the
default 10); conjunctive filters `o.type = ?` and `o.created_at >= ?`;
`ORDER BY rank LIMIT ?`.  A malformed MATCH expression makes the
statement throw, modelled as `Except.error`. -/
def dbSearch (fts : FtsEngine) (db : Db) (query : String) (options : SearchOptions) :
    Except String (List SearchResult) :=
  if fts.wellFormed query then
    let limit := match options.limit with
      | some l => if l == 0 then 10 else l
      | none => 10
    let rows := db.observations.filter (fun o =>
      fts.matchRow query o &&
      (match options.type with
       | some t => o.type == t
       | none => true) &&
      (match options.since with
       | some since => decide (since ≤ o.created_at)
       | none => true))
    let ranked := srtBy (fun a b => decide (fts.rank query a ≤ fts.rank query b)) rows
    Except.ok ((ranked.take limit).map (toSearchResult fts query))
  else
    Except.error "fts5: syntax error"

/-- The `/api/search` response shape (worker server lines 125-151). -/
structure SearchResponse where
  query : String
  results : List SearchResult
  count : Nat
  error : Option String
  deriving Repr, DecidableEq

/-- The `/api/search` handler (worker server lines 125-151): wraps
`db.search` in try/catch and converts an FTS5 syntax error into a
successful empty response carrying an error indicator. -/
def searchHandler (fts : FtsEngine) (db : Db) (query : String) (options : SearchOptions) :
    SearchResponse :=
  match dbSearch fts db query options with
  | Except.ok results =>
      { query := query, results := results, count := results.length, error := none }
  | Except.error _ =>
      { query := query, results := [], count := 0, error := some "Search query syntax error" }

/-- The token cost of one row in `getContextForInjection`:
`obs.tokens || 100` (JS truthiness: a NULL or 0 tokens field falls back
to the estimate 100). -/
def tokensOrEstimate (o : Observation) : Nat :=
  match o.tokens with
  | some t => if t == 0 then 100 else t
  | none => 100

/-- The `for (const row of rows) { ... if (fits) push else break }` loop
of `getContextForInjection` (database/index.ts lines 297-311), with the
running total as accumulator. -/
def budgetLoop (maxTokens : Nat) : List Observation → Nat → List Observation × Nat
  | [], total => ([], total)
  | o :: rest, total =>
    let t := tokensOrEstimate o
    if total + t ≤ maxTokens then
      let r := budgetLoop maxTokens rest (total + t)
      (o :: r.1, r.2)
    else
      ([], total)

/-- The `ORDER BY importance DESC, created_at DESC` comparison of the
context-candidate query. -/
def byImportanceThenRecency (a b : Observation) : Bool :=
  decide (b.importance < a.importance ∨
          (a.importance = b.importance ∧ b.created_at ≤ a.created_at))

/-- The candidate query of `getContextForInjection` (database/index.ts
lines 275-295): type in `includeTypes`, `importance >= 0.5`, optional
project scope through the owning session, ordered by importance then
recency, capped at 100 rows. -/
def contextCandidates (db : Db) (projectPath : Option String) (includeTypes : List String) :
    List Observation :=
  (srtBy byImportanceThenRecency (db.observations.filter (fun o =>
    decide (o.type ∈ includeTypes) &&
    decide (mkRat 5 10 ≤ o.importance) &&
    (match projectPath with
     | some p =>
        (db.sessions.filter (fun s => s.project_path == some p)).any (fun s => s.id == o.session_id)
     | none => true)))).take 100

/-- The options record of `getContextForInjection`. -/
structure ContextOptions where
  projectPath : Option String
  maxTokens : Option Nat
  includeTypes : Option (List String)
  deriving Repr, DecidableEq

/-- `getContextForInjection` (database/index.ts lines 265-314):
`maxTokens = options.maxTokens || 4000`, default include types
decision/bugfix/architecture, then the greedy budget loop over the
capped candidate list. -/
def getContextForInjection (db : Db) (options : ContextOptions) : List Observation × Nat :=
  let maxTokens := match options.maxTokens with
    | some m => if m == 0 then 4000 else m
    | none => 4000
  let includeTypes := options.includeTypes.getD ["decision", "bugfix", "architecture"]
  budgetLoop maxTokens (contextCandidates db options.projectPath includeTypes) 0

/-- `truncateForStorage` (worker server lines 356-359). -/
def truncateForStorage (text : String) (maxLength : Nat) : String :=
  if text.length ≤ maxLength then text
  else (text.take maxLength) ++ "... [truncated]"

/-- The get-or-create sequence used by `/api/observations` (lines 87-91)
and `/api/hooks/tool-result` (lines 246-250): look the session up by key
and fall back to a fresh insert (which cannot collide, since the lookup
just failed). -/
def getOrCreateSession (db : Db) (now : Int) (sessionKey : String) : Db × Session :=
  match getSession db sessionKey with
  | some s => (db, s)
  | none =>
    let s := newSessionRow db now sessionKey none
    ({ db with sessions := db.sessions ++ [s], nextSessionId := db.nextSessionId + 1 }, s)

/-- The `/api/hooks/tool-result` handler (worker server lines 234-269):
get-or-create the session, classify with `classifyObservation` unless a
type is supplied, score with `calculateImportance` unless an importance
is supplied, truncate input/output, and insert the observation. -/
def toolResultHandler (db : Db) (now : Int) (sessionKey toolName input output : String)
    (type : Option String) (importance : Option ℚ) :
    Except String (Db × Observation) :=
  let dbSession := getOrCreateSession db now sessionKey
  let obsType := type.getD (classifyObservation toolName input output)
  let obsImportance := importance.getD (calculateImportance obsType toolName input output)
  createObservation dbSession.1 now
    { session_id := dbSession.2.id
      type := obsType
      tool_name := some toolName
      input := some (truncateForStorage input 5000)
      output := some (truncateForStorage output 10000)
      summary := none
      tokens := none
      importance := some obsImportance }

/-- Models `new Date(created_at).toLocaleDateString()` as an opaque
rendering of the stored timestamp. -/
def formatDate (t : Int) : String := toString t

/-- One line of `contextText` in the `/api/context` handler (worker
server lines 191-195): `[#id date] summary`, where the summary falls
back to "type: tool_name" under JS truthiness. -/
def contextLine (o : Observation) : String :=
  let summary := match o.summary with
    | some s => if s == "" then o.type ++ ": " ++ (o.tool_name.getD "unknown") else s
    | none => o.type ++ ": " ++ (o.tool_name.getD "unknown")
  "[#" ++ toString o.id ++ " " ++ formatDate o.created_at ++ "] " ++ summary

/-- The `/api/context` handler (worker server lines 177-202): run
`getContextForInjection` (include types left at their default) and join
the formatted lines with newlines.  Returns
(observations, totalTokens, contextText). -/
def contextHandler (db : Db) (projectPath : Option String) (maxTokens : Option Nat) :
    List Observation × Nat × String :=
  let result := getContextForInjection db
    { projectPath := projectPath, maxTokens := maxTokens, includeTypes := none }
  (result.1, result.2, String.intercalate "\n" (result.1.map contextLine))

/-- The `/api/hooks/session-start` handler (worker server lines 207-231):
calls `db.createSession` directly -- with no get-or-create sequence --
then fetches the injection context with maxTokens 4000. -/
def sessionStartHandler (db : Db) (now : Int) (sessionKey : String)
    (projectPath : Option String) :
    Except String (Db × Session × (List Observation × Nat)) :=
  match createSession db now sessionKey projectPath with
  | Except.error e => Except.error e
  | Except.ok (db1, session) =>
    Except.ok (db1, session,
      getContextForInjection db1
        { projectPath := projectPath, maxTokens := some 4000, includeTypes := none })

/-- The total token cost of a list of rows. -/
def tokenSum (l : List Observation) : Nat := (l.map tokensOrEstimate).sum

/-- A concrete FTS5 engine instantiation used for witnesses: a query is
malformed when it contains a double quote, matching is substring search
over the indexed text fields, rank is constant. -/
def sampleFts : FtsEngine :=
  { wellFormed := fun q => !(strContains q "\"")
    matchRow := fun q o =>
      strContains (lower ((o.input.getD "") ++ " " ++ (o.output.getD "") ++ " " ++
        (o.summary.getD ""))) (lower q)
    rank := fun _ _ => mkRat 0 1 }

/-- A minimal session row for concrete databases. -/
def session1 : Session :=
  { id := 1, session_key := "s1", project_path := none, started_at := 0,
    ended_at := none, summary := none }

/-- An observation with the given id and timestamp, used for concrete
timeline and batch-fetch databases. -/
def plainObs (i : Nat) (t : Int) : Observation :=
  { id := i, session_id := 1, type := "tool_use", tool_name := none, input := none,
    output := none, summary := none, tokens := none, importance := mkRat 5 10,
    created_at := t }

/-- Concrete database for the timeline and batch-fetch witnesses: a
center observation at time 0, one exactly 2 hours away, one 2 hours and
1 minute away. -/
def timelineDb : Db :=
  { sessions := [session1],
    observations := [plainObs 1 0, plainObs 2 7200, plainObs 3 7260],
    nextSessionId := 2, nextObservationId := 4 }

/-- A bugfix observation with a 40-token cost, for the budget example. -/
def budgetObs (i : Nat) : Observation :=
  { id := i, session_id := 1, type := "bugfix", tool_name := none, input := none,
    output := none, summary := none, tokens := some 40, importance := mkRat 9 10,
    created_at := (i : Int) }

/-- An indexed observation for the search witnesses. -/
def searchObs : Observation :=
  { id := 1, session_id := 1, type := "bugfix", tool_name := some "Write",
    input := some "hello world", output := some "fixed it", summary := none,
    tokens := none, importance := mkRat 9 10, created_at := 10 }

/-- A matching corpus for the search witnesses. -/
def searchDb : Db :=
  { sessions := [session1], observations := [searchObs],
    nextSessionId := 2, nextObservationId := 2 }

/-- Step 1 of the section-8 end-to-end scenario: create session "s1" on
an empty store at time 100. -/
def scenarioStart : Except String (Db × Session) := createSession emptyDb 100 "s1" none

def scenarioDb1 : Db :=
  match scenarioStart with
  | Except.ok p => p.1
  | Except.error _ => emptyDb

/-- Step 2: ingest tool "Write", input "fix null pointer", output
"fixed, tests passed" through the tool-result hook at time 200. -/
def scenarioIngest : Except String (Db × Observation) :=
  toolResultHandler scenarioDb1 200 "s1" "Write" "fix null pointer" "fixed, tests passed"
    none none

def scenarioDb2 : Db :=
  match scenarioIngest with
  | Except.ok p => p.1
  | Except.error _ => scenarioDb1

def scenarioObs : Option Observation :=
  match scenarioIngest with
  | Except.ok p => some p.2
  | Except.error _ => none

/-- Step 3: fetch `/api/context` with default project scope and budget. -/
def scenarioContext : List Observation × Nat × String := contextHandler scenarioDb2 none none

/-- Two session-start hook calls with the same session key, the second
on the state produced by the first. -/
def startTwice : Except String (Db × Session × (List Observation × Nat)) :=
  match sessionStartHandler emptyDb 100 "s1" none with
  | Except.ok p => sessionStartHandler p.1 200 "s1" none
  | Except.error e => Except.error e

/-- Whether an `Except` result is a success. -/
def isOkE {α : Type} (e : Except String α) : Bool :=
  match e with
  | Except.ok _ => true
  | Except.error _ => false

theorem insBy_perm (r : Observation → Observation → Bool) (a : Observation)
    (l : List Observation) : List.Perm (insBy r a l) (a :: l) := by
  induction l with
  | nil => simp [insBy]
  | cons x xs ih =>
    unfold insBy
    by_cases h : r a x = true
    · rw [if_pos h]
    · rw [if_neg h]
      exact ((ih.cons x).trans (List.Perm.swap a x xs))

theorem srtBy_perm (r : Observation → Observation → Bool) (l : List Observation) :
    List.Perm (srtBy r l) l := by
  induction l with
  | nil => simp [srtBy]
  | cons x xs ih => exact (insBy_perm r x (srtBy r xs)).trans (ih.cons x)

theorem mem_srtBy {r : Observation → Observation → Bool} {a : Observation}
    {l : List Observation} : a ∈ srtBy r l ↔ a ∈ l :=
  (srtBy_perm r l).mem_iff

theorem pairwise_insBy {r : Observation → Observation → Bool}
    (htot : ∀ a b, r a b = true ∨ r b a = true)
    (htrans : ∀ a b c, r a b = true → r b c = true → r a c = true)
    (a : Observation) (l : List Observation)
    (hl : l.Pairwise (fun x y => r x y = true)) :
    (insBy r a l).Pairwise (fun x y => r x y = true) := by
  induction l with
  | nil => simp [insBy]
  | cons x xs ih =>
    unfold insBy
    by_cases h : r a x = true
    · rw [if_pos h]
      refine List.Pairwise.cons ?_ hl
      intro b hb
      rcases List.mem_cons.mp hb with hb | hb
      · subst hb; exact h
      · exact htrans a x b h (List.rel_of_pairwise_cons hl hb)
    · have hxa : r x a = true := (htot a x).resolve_left h
      rw [if_neg h]
      refine List.Pairwise.cons ?_ (ih hl.of_cons)
      intro b hb
      have hb' : b = a ∨ b ∈ xs := by
        have := (insBy_perm r a xs).mem_iff.mp hb
        simpa using this
      rcases hb' with hb' | hb'
      · subst hb'; exact hxa
      · exact List.rel_of_pairwise_cons hl hb'

theorem pairwise_srtBy {r : Observation → Observation → Bool}
    (htot : ∀ a b, r a b = true ∨ r b a = true)
    (htrans : ∀ a b c, r a b = true → r b c = true → r a c = true)
    (l : List Observation) :
    (srtBy r l).Pairwise (fun x y => r x y = true) := by
  induction l with
  | nil => simp [srtBy]
  | cons x xs ih => exact pairwise_insBy htot htrans x (srtBy r xs) ih

theorem budgetLoop_spec (maxTokens : Nat) (l : List Observation) (total : Nat) :
    ((budgetLoop maxTokens l total).1 <+: l) ∧
    ((budgetLoop maxTokens l total).2 = total + tokenSum (budgetLoop maxTokens l total).1) ∧
    (total ≤ maxTokens → (budgetLoop maxTokens l total).2 ≤ maxTokens) ∧
    (∃ rest, l = (budgetLoop maxTokens l total).1 ++ rest ∧
       (rest = [] ∨ ∃ o rest2, rest = o :: rest2 ∧
          maxTokens < (budgetLoop maxTokens l total).2 + tokensOrEstimate o)) := by
  induction l generalizing total with
  | nil =>
    refine ⟨⟨[], rfl⟩, ?_, ?_, ⟨[], ?_, Or.inl rfl⟩⟩ <;> simp [budgetLoop, tokenSum]
  | cons o rest ih =>
    by_cases h : total + tokensOrEstimate o ≤ maxTokens
    · have hb : budgetLoop maxTokens (o :: rest) total =
        (o :: (budgetLoop maxTokens rest (total + tokensOrEstimate o)).1,
         (budgetLoop maxTokens rest (total + tokensOrEstimate o)).2) := by
        simp [budgetLoop, h]
      obtain ⟨⟨t, ht⟩, ih2, ih3, rest2, ih4, ih5⟩ := ih (total + tokensOrEstimate o)
      refine ⟨⟨t, ?_⟩, ?_, fun _ => ?_, ⟨rest2, ?_, ?_⟩⟩
      · rw [hb]; simpa using congrArg (o :: ·) ht
      · rw [hb]
        simp only [tokenSum, List.map_cons, List.sum_cons] at ih2 ⊢
        omega
      · rw [hb]; exact ih3 h
      · rw [hb]; simpa using congrArg (o :: ·) ih4
      · rw [hb]; simpa using ih5
    · have hb : budgetLoop maxTokens (o :: rest) total = ([], total) := by
        simp [budgetLoop, h]
      refine ⟨?_, ?_, fun ht => ?_, ⟨o :: rest, ?_, Or.inr ⟨o, rest, rfl, ?_⟩⟩⟩
      · rw [hb]; exact ⟨o :: rest, rfl⟩
      · rw [hb]; simp [tokenSum]
      · rw [hb]; exact ht
      · rw [hb]; rfl
      · rw [hb]; omega

theorem lower_lit_fix : lower "fix" = "fix" := by decide
theorem lower_lit_fixed : lower "fixed" = "fixed" := by decide
theorem lower_lit_resolved : lower "resolved" = "resolved" := by decide
theorem lower_lit_error : lower "error" = "error" := by decide
theorem lower_lit_write : lower "write" = "write" := by decide
theorem lower_lit_edit : lower "edit" = "edit" := by decide
theorem lower_lit_failed : lower "failed" = "failed" := by decide
theorem lower_lit_success : lower "success" = "success" := by decide
theorem lower_lit_completed : lower "completed" = "completed" := by decide

/-- Rule 1 of the plugin-side classifier: any fix signal yields
(bugfix, 0.9) before the tool name is consulted. -/
theorem classifyToolResult_rule1 (toolName input output : String)
    (h : containsCI input "fix" = true ∨ containsCI output "fixed" = true ∨
         containsCI output "resolved" = true ∨ containsCI output "error" = true) :
    classifyToolResult toolName input output = ("bugfix", mkRat 9 10) := by
  unfold classifyToolResult
  rcases h with h | h | h | h <;>
    (simp only [containsCI, lower_lit_fix, lower_lit_fixed, lower_lit_resolved,
       lower_lit_error] at h; simp [h])


/-- The ingestion-side classifier on a write/edit tool with a fix signal. -/
theorem classifyObservation_writefix (toolName input output : String)
    (htool : containsCI toolName "write" = true ∨ containsCI toolName "edit" = true)
    (hfix : containsCI input "fix" = true ∨ containsCI output "fixed" = true) :
    classifyObservation toolName input output = "bugfix" := by
  unfold classifyObservation
  have h1 : (strContains (lower toolName) "write" || strContains (lower toolName) "edit") = true := by
    rcases htool with h | h <;>
      (simp only [containsCI, lower_lit_write, lower_lit_edit] at h; simp [h])
  have h2 : (strContains (lower input) "fix" || strContains (lower output) "fixed") = true := by
    rcases hfix with h | h <;>
      (simp only [containsCI, lower_lit_fix, lower_lit_fixed] at h; simp [h])
  simp [h1, h2]

/-- `calculateImportance` on type bugfix with no boost keyword in the output. -/
theorem calculateImportance_bugfix_noboost (toolName input output : String)
    (he : containsCI output "error" = false) (hf : containsCI output "failed" = false)
    (hs : containsCI output "success" = false) (hc : containsCI output "completed" = false) :
    calculateImportance "bugfix" toolName input output = mkRat 9 10 := by
  unfold calculateImportance
  simp only [containsCI, lower_lit_error, lower_lit_failed, lower_lit_success,
    lower_lit_completed] at he hf hs hc
  simp [he, hf, hs, hc, typeImportance]

/-- C1 counterexample: the premise of the claim holds at
("Bash", "fix the build", "done") -- the input mentions "fix" -- yet the
ingestion-side classifier pair returns (command, 0.4), not (bugfix, 0.9). -/
theorem ingestion_classifier_ignores_fix_for_bash :
    containsCI "fix the build" "fix" = true ∧
    classifyObservation "Bash" "fix the build" "done" = "command" ∧
    calculateImportance (classifyObservation "Bash" "fix the build" "done")
      "Bash" "fix the build" "done" = mkRat 4 10 ∧
    ("command" ≠ "bugfix" ∧ mkRat 4 10 ≠ mkRat 9 10) := by
  refine ⟨by decide, by decide, by decide, by decide, by decide⟩

/-- C1 amended: for the plugin-side classifier `classifyToolResult`, a
fix signal (input mentions "fix", or output mentions "fixed", "resolved"
or "error", case-insensitively) yields type bugfix at importance 0.9
regardless of the tool name. -/
theorem classifyToolResult_fix_signal_is_bugfix (toolName input output : String)
    (h : containsCI input "fix" = true ∨ containsCI output "fixed" = true ∨
         containsCI output "resolved" = true ∨ containsCI output "error" = true) :
    classifyToolResult toolName input output = ("bugfix", mkRat 9 10) :=
  classifyToolResult_rule1 toolName input output h

/-- C1 witness: the spec's own precedence example, on a write tool. -/
theorem classifyToolResult_fix_signal_is_bugfix_witness :
    containsCI "please fix the bug" "fix" = true ∧
    classifyToolResult "Write" "please fix the bug" "fixed" = ("bugfix", mkRat 9 10) :=
  ⟨by decide,
   classifyToolResult_fix_signal_is_bugfix "Write" "please fix the bug" "fixed"
     (Or.inl (by decide))⟩


/-- C9 counterexample: tool "Write" with output "resolved" satisfies the
claim's premise (write/edit tool plus a fix signal), yet the plugin-side
classifier says (bugfix, 0.9) while the ingestion-side pair says
(code_change, 0.7). -/
theorem classifier_pair_disagrees_on_resolved :
    containsCI "Write" "write" = true ∧
    containsCI "resolved" "resolved" = true ∧
    classifyToolResult "Write" "update code" "resolved" = ("bugfix", mkRat 9 10) ∧
    classifyObservation "Write" "update code" "resolved" = "code_change" ∧
    calculateImportance (classifyObservation "Write" "update code" "resolved")
      "Write" "update code" "resolved" = mkRat 7 10 ∧
    ("code_change" ≠ "bugfix" ∧ mkRat 7 10 ≠ mkRat 9 10) := by
  refine ⟨by decide, by decide, by decide, by decide, by decide, by decide, by decide⟩

/-- C9 amended: the two classifiers agree on (bugfix, 0.9) when the tool
name mentions write/edit, the input mentions "fix" or the output
mentions "fixed", and the output contains none of the importance-boost
keywords "error", "failed", "success", "completed". -/
theorem classifiers_agree_on_writefix (toolName input output : String)
    (htool : containsCI toolName "write" = true ∨ containsCI toolName "edit" = true)
    (hfix : containsCI input "fix" = true ∨ containsCI output "fixed" = true)
    (he : containsCI output "error" = false) (hf : containsCI output "failed" = false)
    (hs : containsCI output "success" = false) (hc : containsCI output "completed" = false) :
    classifyToolResult toolName input output = ("bugfix", mkRat 9 10) ∧
    classifyObservation toolName input output = "bugfix" ∧
    calculateImportance (classifyObservation toolName input output) toolName input output
      = mkRat 9 10 := by
  have hobs := classifyObservation_writefix toolName input output htool hfix
  have hplug : classifyToolResult toolName input output = ("bugfix", mkRat 9 10) := by
    refine classifyToolResult_rule1 toolName input output ?_
    rcases hfix with h | h
    · exact Or.inl h
    · exact Or.inr (Or.inl h)
  exact ⟨hplug, hobs, by
    rw [hobs]; exact calculateImportance_bugfix_noboost toolName input output he hf hs hc⟩

/-- C9 witness: a write tool fixing a bug with a neutral output. -/
theorem classifiers_agree_on_writefix_witness :
    classifyToolResult "Write" "fix null pointer" "done" = ("bugfix", mkRat 9 10) ∧
    classifyObservation "Write" "fix null pointer" "done" = "bugfix" ∧
    calculateImportance (classifyObservation "Write" "fix null pointer" "done")
      "Write" "fix null pointer" "done" = mkRat 9 10 :=
  classifiers_agree_on_writefix "Write" "fix null pointer" "done"
    (Or.inl (by decide)) (Or.inl (by decide)) (by decide) (by decide) (by decide) (by decide)


theorem qmin_le_right (a b : ℚ) : qmin a b ≤ b := by
  unfold qmin; split_ifs with h
  · exact h
  · exact le_refl b

theorem qmin_nonneg {a b : ℚ} (ha : 0 ≤ a) (hb : 0 ≤ b) : 0 ≤ qmin a b := by
  unfold qmin; split_ifs
  · exact ha
  · exact hb

set_option maxHeartbeats 1000000 in
theorem typeImportance_bounds (t : String) :
    mkRat 3 10 ≤ typeImportance t ∧ typeImportance t ≤ mkRat 9 10 := by
  unfold typeImportance
  split_ifs <;> refine ⟨?_, ?_⟩ <;> with_unfolding_all decide

theorem calculateImportance_bounds (type toolName input output : String) :
    0 ≤ calculateImportance type toolName input output ∧
    calculateImportance type toolName input output ≤ 1 := by
  obtain ⟨h1, h2⟩ := typeImportance_bounds type
  have hbase0 : (0 : ℚ) ≤ typeImportance type :=
    le_trans (by with_unfolding_all decide) h1
  have hbase1 : typeImportance type ≤ 1 :=
    le_trans h2 (by with_unfolding_all decide)
  have hone : (0 : ℚ) ≤ mkRat 1 1 := by with_unfolding_all decide
  have hmk1 : (mkRat 1 1 : ℚ) ≤ 1 := by with_unfolding_all decide
  simp only [calculateImportance]
  split_ifs with hA hB hB
  · constructor
    · refine qmin_nonneg (add_nonneg (qmin_nonneg (add_nonneg hbase0 ?_) hone) ?_) hone <;>
        with_unfolding_all decide
    · exact le_trans (qmin_le_right _ _) hmk1
  · constructor
    · refine qmin_nonneg (add_nonneg hbase0 ?_) hone
      with_unfolding_all decide
    · exact le_trans (qmin_le_right _ _) hmk1
  · constructor
    · refine qmin_nonneg (add_nonneg hbase0 ?_) hone
      with_unfolding_all decide
    · exact le_trans (qmin_le_right _ _) hmk1
  · exact ⟨hbase0, hbase1⟩

set_option maxHeartbeats 1000000 in
theorem classifyToolResult_importance_bounds (toolName input output : String) :
    0 ≤ (classifyToolResult toolName input output).2 ∧
    (classifyToolResult toolName input output).2 ≤ 1 := by
  simp only [classifyToolResult]
  split_ifs <;> constructor <;> with_unfolding_all decide


/-- C3 counterexample: `createObservation` stores a caller-supplied
importance of 1.5 as-is -- the store applies no clamping, so the written
row violates the claimed [0,1] invariant. -/
theorem createObservation_stores_unclamped_importance :
    (match createObservation timelineDb 50
        { session_id := 1, type := "decision", tool_name := none, input := none,
          output := none, summary := none, tokens := none,
          importance := some (mkRat 3 2) } with
     | Except.ok p => p.2.importance
     | Except.error _ => 0) = mkRat 3 2 ∧
    ¬(mkRat 3 2 ≤ 1) := by
  constructor
  · with_unfolding_all decide
  · with_unfolding_all decide

/-- C3 amended: every importance computed by either classifier lies in
[0,1], and every observation written through the tool-result
auto-classification path (type and importance omitted by the caller)
has importance in [0,1]; but the store itself does not clamp a
caller-supplied importance (see the counterexample). -/
theorem classifier_importance_always_in_range :
    (∀ type toolName input output : String,
       0 ≤ calculateImportance type toolName input output ∧
       calculateImportance type toolName input output ≤ 1) ∧
    (∀ toolName input output : String,
       0 ≤ (classifyToolResult toolName input output).2 ∧
       (classifyToolResult toolName input output).2 ≤ 1) ∧
    (∀ (db : Db) (now : Int) (sessionKey toolName input output : String),
       match toolResultHandler db now sessionKey toolName input output none none with
       | Except.ok p => 0 ≤ p.2.importance ∧ p.2.importance ≤ 1
       | Except.error _ => True) := by
  refine ⟨fun t a b c => calculateImportance_bounds t a b c,
          fun a b c => classifyToolResult_importance_bounds a b c, ?_⟩
  intro db now sessionKey toolName input output
  simp only [toolResultHandler, createObservation]
  split_ifs with h
  · simp only [Option.getD]
    exact calculateImportance_bounds _ _ _ _
  · trivial


theorem byCreatedAsc_total (a b : Observation) :
    byCreatedAsc a b = true ∨ byCreatedAsc b a = true := by
  simp only [byCreatedAsc, decide_eq_true_eq]
  exact le_total _ _

theorem byCreatedAsc_trans (a b c : Observation) :
    byCreatedAsc a b = true → byCreatedAsc b c = true → byCreatedAsc a c = true := by
  simp only [byCreatedAsc, decide_eq_true_eq]
  exact le_trans

theorem byCreatedDesc_total (a b : Observation) :
    byCreatedDesc a b = true ∨ byCreatedDesc b a = true := by
  simp only [byCreatedDesc, decide_eq_true_eq]
  exact (le_total _ _).symm

theorem byCreatedDesc_trans (a b c : Observation) :
    byCreatedDesc a b = true → byCreatedDesc b c = true → byCreatedDesc a c = true := by
  simp only [byCreatedDesc, decide_eq_true_eq]
  exact fun h1 h2 => le_trans h2 h1

set_option maxRecDepth 8000 in
set_option maxHeartbeats 1000000 in
/-- C4: the timeline window is inclusive at both endpoints, sorted
ascending by `created_at`, and empty when the center id does not
resolve; concretely, with a center at time 0 the observation exactly
2 hours away is included and the one 2 hours 1 minute away is excluded. -/
theorem getTimeline_window_spec :
    (∀ (db : Db) (cid rangeHours : Nat),
       (match getObservation db cid with
        | none => getTimeline db cid rangeHours = []
        | some center =>
          ∀ o : Observation, o ∈ getTimeline db cid rangeHours ↔
            (o ∈ db.observations ∧
             center.created_at - (rangeHours * 3600 : Nat) ≤ o.created_at ∧
             o.created_at ≤ center.created_at + (rangeHours * 3600 : Nat))) ∧
       (getTimeline db cid rangeHours).Pairwise
         (fun a b => a.created_at ≤ b.created_at)) ∧
    getTimeline timelineDb 1 2 = [plainObs 1 0, plainObs 2 7200] := by
  constructor
  · intro db cid rangeHours
    constructor
    · cases hc : getObservation db cid with
      | none => simp [getTimeline, hc]
      | some center =>
        intro o
        simp only [getTimeline, hc]
        rw [mem_srtBy, List.mem_filter]
        simp [and_assoc]
    · unfold getTimeline
      cases hc : getObservation db cid with
      | none => simp
      | some center =>
        refine (pairwise_srtBy byCreatedAsc_total byCreatedAsc_trans _).imp ?_
        intro a b h
        simpa [byCreatedAsc] using h
  · decide


/-- C8: batch fetch returns exactly the stored observations whose id is
in the requested list (missing ids silently omitted), ordered by
`created_at` descending; concretely, ids [1, 999] with only id 1
existing yield just that row, and the empty id list yields the empty
list. -/
theorem getObservations_batch_spec :
    (∀ (db : Db) (ids : List Nat),
       (∀ o : Observation, o ∈ getObservations db ids ↔
          (o ∈ db.observations ∧ o.id ∈ ids)) ∧
       (getObservations db ids).Pairwise (fun a b => b.created_at ≤ a.created_at)) ∧
    getObservations timelineDb [1, 999] = [plainObs 1 0] ∧
    getObservations timelineDb [] = [] := by
  refine ⟨?_, by decide, by decide⟩
  intro db ids
  constructor
  · intro o
    unfold getObservations
    split_ifs with h
    · have : ids = [] := by simpa using h
      simp [this]
    · rw [mem_srtBy, List.mem_filter]
      simp
  · unfold getObservations
    split_ifs with h
    · simp
    · refine (pairwise_srtBy byCreatedDesc_total byCreatedDesc_trans _).imp ?_
      intro a b hb
      simpa [byCreatedDesc] using hb


theorem budgetLoop_length_le (maxTokens : Nat) (l : List Observation) :
    (budgetLoop maxTokens l 0).1.length ≤ l.length :=
  (budgetLoop_spec maxTokens l 0).1.length_le

theorem contextCandidates_length_le (db : Db) (projectPath : Option String)
    (includeTypes : List String) :
    (contextCandidates db projectPath includeTypes).length ≤ 100 := by
  unfold contextCandidates
  rw [List.length_take]
  exact Nat.min_le_left _ _

/-- C2: the budget loop walks the pre-ordered candidates in order,
costs each item as its tokens field (fallback estimate 100), stops at
the first item whose addition would exceed maxTokens, and returns the
accepted prefix with the exact sum of its costs; maxTokens defaults to
4000, the candidate query is capped at 100 rows, and on token costs
[40, 40, 40] with maxTokens 100 exactly the first two are kept with
total 80. -/
theorem getContextForInjection_budget_spec :
    (∀ (maxTokens : Nat) (candidates : List Observation),
       ((budgetLoop maxTokens candidates 0).1 <+: candidates) ∧
       (budgetLoop maxTokens candidates 0).2 =
         tokenSum (budgetLoop maxTokens candidates 0).1 ∧
       (budgetLoop maxTokens candidates 0).2 ≤ maxTokens ∧
       (∃ rest, candidates = (budgetLoop maxTokens candidates 0).1 ++ rest ∧
          (rest = [] ∨ ∃ o rest2, rest = o :: rest2 ∧
             maxTokens < (budgetLoop maxTokens candidates 0).2 + tokensOrEstimate o))) ∧
    (∀ (db : Db) (options : ContextOptions),
       (getContextForInjection db options).1.length ≤ 100) ∧
    (∀ (db : Db) (projectPath : Option String),
       getContextForInjection db
         { projectPath := projectPath, maxTokens := none, includeTypes := none } =
       budgetLoop 4000 (contextCandidates db projectPath ["decision", "bugfix", "architecture"]) 0) ∧
    budgetLoop 100 [budgetObs 1, budgetObs 2, budgetObs 3] 0 =
      ([budgetObs 1, budgetObs 2], 80) := by
  refine ⟨?_, ?_, fun db pp => rfl, by decide⟩
  · intro maxT cands
    obtain ⟨h1, h2, h3, h4⟩ := budgetLoop_spec maxT cands 0
    exact ⟨h1, by simpa using h2, h3 (Nat.zero_le _), h4⟩
  · intro db options
    simp only [getContextForInjection]
    exact le_trans (budgetLoop_length_le _ _) (contextCandidates_length_le _ _ _)


/-- C7: the search boundary never lets an exception escape -- a
malformed query yields an empty result set with the error indicator
set, a well-formed query with no matching row (in particular over an
empty corpus) yields count 0 and no error, and `count` always equals
the result-list length. -/
theorem searchHandler_boundary_spec (fts : FtsEngine) (db : Db) (query : String)
    (options : SearchOptions) :
    ((searchHandler fts db query options).count =
       (searchHandler fts db query options).results.length) ∧
    (fts.wellFormed query = false →
       (searchHandler fts db query options).results = [] ∧
       (searchHandler fts db query options).count = 0 ∧
       (searchHandler fts db query options).error = some "Search query syntax error") ∧
    (fts.wellFormed query = true →
     (∀ o ∈ db.observations, fts.matchRow query o = false) →
       (searchHandler fts db query options).results = [] ∧
       (searchHandler fts db query options).count = 0 ∧
       (searchHandler fts db query options).error = none) := by
  refine ⟨?_, ?_, ?_⟩
  · unfold searchHandler
    cases h : dbSearch fts db query options with
    | ok results => simp
    | error e => simp
  · intro hw
    have herr : dbSearch fts db query options = Except.error "fts5: syntax error" := by
      unfold dbSearch
      rw [if_neg]
      simp [hw]
    simp [searchHandler, herr]
  · intro hw hnone
    have hrows : (db.observations.filter (fun o =>
        fts.matchRow query o &&
        (match options.type with | some t => o.type == t | none => true) &&
        (match options.since with
         | some since => decide (since ≤ o.created_at)
         | none => true))) = [] := by
      rw [List.filter_eq_nil_iff]
      intro o ho
      simp [hnone o ho]
    unfold searchHandler dbSearch
    rw [if_pos hw]
    simp only [hrows, srtBy, List.take_nil, List.map_nil]
    simp


/-- C7 witness: a malformed query over the empty corpus, and a
well-formed unmatched query over a one-row corpus. -/
theorem searchHandler_boundary_spec_witness :
    (searchHandler sampleFts emptyDb "\"bad" noSearchOptions).results = [] ∧
    (searchHandler sampleFts emptyDb "\"bad" noSearchOptions).count = 0 ∧
    (searchHandler sampleFts emptyDb "\"bad" noSearchOptions).error =
      some "Search query syntax error" ∧
    (searchHandler sampleFts searchDb "zzz" noSearchOptions).results = [] ∧
    (searchHandler sampleFts searchDb "zzz" noSearchOptions).count = 0 ∧
    (searchHandler sampleFts searchDb "zzz" noSearchOptions).error = none := by
  obtain ⟨-, h2, -⟩ := searchHandler_boundary_spec sampleFts emptyDb "\"bad" noSearchOptions
  obtain ⟨-, -, h3⟩ := searchHandler_boundary_spec sampleFts searchDb "zzz" noSearchOptions
  obtain ⟨a, b, c⟩ := h2 (by decide)
  obtain ⟨d, e, f⟩ := h3 (by decide) (by decide)
  exact ⟨a, b, c, d, e, f⟩

/-- C10: a caller-supplied limit of 0 is replaced by the default 10
(the option is tested for JS truthiness, not presence), so over any
corpus with at least one matching row the search returns a non-empty
result list of at most 10 rows. -/
theorem search_limit_zero_uses_default (fts : FtsEngine) (db : Db) (query : String)
    (hw : fts.wellFormed query = true)
    (hmatch : ∃ o ∈ db.observations, fts.matchRow query o = true) :
    (searchHandler fts db query
       { type := none, since := none, limit := some 0 }).results ≠ [] ∧
    (searchHandler fts db query
       { type := none, since := none, limit := some 0 }).results.length ≤ 10 := by
  obtain ⟨o, ho, hm⟩ := hmatch
  have hok : dbSearch fts db query { type := none, since := none, limit := some 0 } =
      Except.ok (((srtBy (fun a b => decide (fts.rank query a ≤ fts.rank query b))
        (db.observations.filter (fun x => fts.matchRow query x && true && true))).take 10).map
        (toSearchResult fts query)) := by
    unfold dbSearch
    rw [if_pos hw]
    rfl
  have hmem : o ∈ db.observations.filter
      (fun x => fts.matchRow query x && true && true) :=
    List.mem_filter.mpr ⟨ho, by simp [hm]⟩
  have hpos : 0 < (db.observations.filter
      (fun x => fts.matchRow query x && true && true)).length :=
    List.length_pos.mpr (List.ne_nil_of_mem hmem)
  have hlen : (((srtBy (fun a b => decide (fts.rank query a ≤ fts.rank query b))
      (db.observations.filter (fun x => fts.matchRow query x && true && true))).take 10).map
      (toSearchResult fts query)).length =
      min 10 (db.observations.filter
        (fun x => fts.matchRow query x && true && true)).length := by
    rw [List.length_map, List.length_take, (srtBy_perm _ _).length_eq]
  unfold searchHandler
  rw [hok]
  constructor
  · intro hnil
    have h0 : (((srtBy (fun a b => decide (fts.rank query a ≤ fts.rank query b))
        (db.observations.filter (fun x => fts.matchRow query x && true && true))).take 10).map
        (toSearchResult fts query)).length = 0 := by
      simp only at hnil
      rw [hnil]
      rfl
    rw [hlen] at h0
    omega
  · simp only
    rw [hlen]
    omega

/-- C10 witness: a corpus with one matching bugfix row and limit 0. -/
theorem search_limit_zero_uses_default_witness :
    (searchHandler sampleFts searchDb "hello"
       { type := none, since := none, limit := some 0 }).results ≠ [] ∧
    (searchHandler sampleFts searchDb "hello"
       { type := none, since := none, limit := some 0 }).results.length ≤ 10 :=
  search_limit_zero_uses_default sampleFts searchDb "hello" (by decide)
    ⟨searchObs, by decide, by decide⟩


/-- C5: the session-start path is not idempotent on `session_key` --
the first call succeeds, but a second call with the same key runs the
plain INSERT again and hits the UNIQUE(session_key) constraint instead
of reusing the existing session. -/
theorem sessionStart_duplicate_key_throws :
    isOkE (sessionStartHandler emptyDb 100 "s1" none) = true ∧
    startTwice = Except.error "UNIQUE constraint failed: sessions.session_key" := by
  refine ⟨by decide, by rfl⟩

/-- C6 counterexample: in the section-8 scenario the stored importance
is 0.9 (the output "fixed, tests passed" contains no boost keyword) --
not exactly 1.0 as claimed -- and, since the ingested observation has no
stored summary, its context line is rendered from the "type: tool_name"
fallback, not from the output text. -/
theorem scenario_importance_and_line_differ_from_claim :
    (scenarioObs.map Observation.importance) = some (mkRat 9 10) ∧
    mkRat 9 10 ≠ mkRat 1 1 ∧
    scenarioContext.2.2 = "[#1 200] bugfix: Write" ∧
    "[#1 200] bugfix: Write" ≠ "[#1 200] fixed, tests passed" := by
  refine ⟨by decide, by decide, by decide, by decide⟩

/-- C6 amended: the scenario observation is classified bugfix at
importance 0.9, is selected for injection under the default types and
budget, and appears in `contextText` as the single line
"[#id date] bugfix: Write" (the stored-summary fallback), where the
date renders the stored creation timestamp. -/
theorem scenario_bugfix_context_line :
    (scenarioObs.map Observation.type) = some "bugfix" ∧
    (scenarioObs.map Observation.importance) = some (mkRat 9 10) ∧
    scenarioContext.1.map Observation.id = [1] ∧
    scenarioContext.2.1 = 100 ∧
    scenarioContext.2.2 = "[#" ++ toString 1 ++ " " ++ formatDate 200 ++ "] bugfix: Write" := by
  refine ⟨by decide, by decide, by decide, by decide, by decide⟩

end OpenClawMem
